import Mathlib

/-!
Shallow embedding of `src/main.py` (ai-camera-speaker-module).

The program is a single-file Python loop:
capture webcam frame → record microphone → transcribe → generate reply →
speak, inside `while True` with `except KeyboardInterrupt` / `except Exception`.

External effects (camera, microphone, network calls, audio output, the
process environment) are modelled by explicit "world" records supplying the
outcome of each external call, and every embedded function returns, next to
its value, the list of observable events it performed, in order.  Machine
floats are modelled by `PyFloat` over `ℚ` (the values the claims touch,
"1.0" and 1.0, are exact in binary floating point, so the rational model is
faithful on them).
-/

namespace CameraSpeaker

/-- Python `float` values: finite (modelled exactly as a rational), signed
infinity, or NaN. -/
inductive PyFloat
  | finite (q : ℚ)
  | inf (neg : Bool)
  | nan
deriving DecidableEq

/-- Python exceptions that the program can see. -/
inductive PyErr
  | runtimeError (msg : String)
  | valueError (msg : String)
  | keyError (key : String)
  | keyboardInterrupt
  | other (msg : String)
deriving DecidableEq

/-- `str(e)` as used by `print(f"⚠️ Error en loop: {e}")`. -/
def PyErr.message : PyErr → String
  | .runtimeError m => m
  | .valueError m => m
  | .keyError k => "'" ++ k ++ "'"
  | .keyboardInterrupt => ""
  | .other m => m

instance {ε α : Type} [DecidableEq ε] [DecidableEq α] :
    DecidableEq (Except ε α) := fun a b =>
  match a, b with
  | .error e, .error f =>
    if h : e = f then isTrue (by rw [h])
    else isFalse (fun hh => h (by injection hh))
  | .error _, .ok _ => isFalse (fun hh => Except.noConfusion hh)
  | .ok _, .error _ => isFalse (fun hh => Except.noConfusion hh)
  | .ok x, .ok y =>
    if h : x = y then isTrue (by rw [h])
    else isFalse (fun hh => h (by injection hh))

/-- The process environment: `os.getenv` / `os.environ` lookups.  The model
environment is the environment after `load_dotenv()` has merged the `.env`
file; it is immutable, as the program never writes to `os.environ`. -/
def Env : Type := String → Option String

/-- Observable events performed by the program, in program order. -/
inductive Event
  | envRead (key : String)
  | print (s : String)
  | camOpen
  | camRead
  | camRelease
  | jpegEncode
  | micRecord (samples : ℕ)
  | sdWaitRecord
  | tmpWriteWav (path : String)
  | transcribeCall (path : String)
  | completionCall (systemMsg : String) (userText : String) (imageUrl : String)
  | ttsConvert (apiKey : String) (voiceId : String) (modelId : String) (text : String)
  | tmpWriteMp3
  | sfRead
  | sdPlay
  | sdWaitPlay
  | sleepFor (d : PyFloat)
deriving DecidableEq

/-! ### Python `float(str)` (ASCII grammar)

`float(os.getenv("LOOP_DELAY_SECONDS", "1.0"))` — model of CPython's
`float` constructor on strings: optional surrounding whitespace, optional
sign, then either a decimal mantissa with optional exponent, or
`inf`/`infinity`/`nan` case-insensitively.  (Digit-group underscores and
non-ASCII whitespace/digits are outside the model.) -/

/-- Value of a list of decimal digit characters. -/
def decDigitsVal (cs : List Char) : ℕ :=
  cs.foldl (fun acc c => 10 * acc + (c.toNat - 48)) 0

/-- Exponent part after `e`/`E`: optional sign then at least one digit. -/
def parseExp : List Char → Option ℤ
  | [] => none
  | '+' :: r => if r ≠ [] ∧ r.all Char.isDigit then some (decDigitsVal r) else none
  | '-' :: r => if r ≠ [] ∧ r.all Char.isDigit then some (-(decDigitsVal r : ℤ)) else none
  | cs => if cs.all Char.isDigit then some (decDigitsVal cs) else none

/-- Decimal mantissa with optional exponent (no sign, no whitespace):
returns the mantissa digits read as one integer, the count of fractional
digits, and the exponent. -/
def parseNumeric (cs : List Char) : Option (ℕ × ℕ × ℤ) :=
  let ip := cs.takeWhile Char.isDigit
  match cs.dropWhile Char.isDigit with
  | [] => if ip.isEmpty then none else some (decDigitsVal ip, 0, 0)
  | '.' :: r2 =>
    let fp := r2.takeWhile Char.isDigit
    if ip.isEmpty ∧ fp.isEmpty then none
    else
      match r2.dropWhile Char.isDigit with
      | [] => some (decDigitsVal (ip ++ fp), fp.length, 0)
      | 'e' :: r4 => (parseExp r4).map (fun z => (decDigitsVal (ip ++ fp), fp.length, z))
      | 'E' :: r4 => (parseExp r4).map (fun z => (decDigitsVal (ip ++ fp), fp.length, z))
      | _ => none
  | 'e' :: r4 =>
    if ip.isEmpty then none else (parseExp r4).map (fun z => (decDigitsVal ip, 0, z))
  | 'E' :: r4 =>
    if ip.isEmpty then none else (parseExp r4).map (fun z => (decDigitsVal ip, 0, z))
  | _ => none

/-- Exact value `±m × 10^(z − f)` of a parsed mantissa/exponent, built with
`mkRat` so it evaluates by kernel reduction. -/
def sciVal (neg : Bool) (m f : ℕ) (z : ℤ) : ℚ :=
  let sm : ℤ := if neg then -(m : ℤ) else (m : ℤ)
  if (f : ℤ) ≤ z then mkRat (sm * 10 ^ (z - (f : ℤ)).toNat) 1
  else mkRat sm (10 ^ (((f : ℤ) - z).toNat))

/-- Model of Python `float(s)`; `none` means `ValueError`.  (The model keeps
the exact decimal value; rounding to binary and overflow to infinity are
outside it — the program only ever parses delay values such as "1.0" for
which the float value is exact.) -/
def pyFloat (s : String) : Option PyFloat :=
  let cs := ((s.toList.dropWhile Char.isWhitespace).reverse.dropWhile
    Char.isWhitespace).reverse
  let signed : Bool × List Char :=
    match cs with
    | '+' :: r => (false, r)
    | '-' :: r => (true, r)
    | r => (false, r)
  let lower := signed.2.map Char.toLower
  if lower = "inf".toList ∨ lower = "infinity".toList then some (.inf signed.1)
  else if lower = "nan".toList then some .nan
  else (parseNumeric signed.2).map
    (fun mfz => .finite (sciVal signed.1 mfz.1 mfz.2.1 mfz.2.2))

/-- Python `str.strip()` with no argument: remove leading and trailing
whitespace. -/
def pyStrip (s : String) : String :=
  String.mk (((s.toList.dropWhile Char.isWhitespace).reverse.dropWhile
    Char.isWhitespace).reverse)

/-! ### `base64.b64encode` on byte lists (standard RFC 4648 alphabet) -/

def base64Alphabet : List Char :=
  "ABCDEFGHIJKLMNOPQRSTUVWXYZabcdefghijklmnopqrstuvwxyz0123456789+/".toList

def base64Char (n : ℕ) : Char := base64Alphabet.getD n 'A'

def base64Encode : List ℕ → String
  | [] => ""
  | [a] =>
    String.mk [base64Char (a / 4), base64Char (a % 4 * 16)] ++ "=="
  | [a, b] =>
    String.mk [base64Char (a / 4), base64Char (a % 4 * 16 + b / 16),
      base64Char (b % 16 * 4)] ++ "="
  | a :: b :: c :: rest =>
    String.mk [base64Char (a / 4), base64Char (a % 4 * 16 + b / 16),
      base64Char (b % 16 * 4 + c / 64), base64Char (c % 64)] ++ base64Encode rest

/-! ### Configuration constants (`src/main.py` lines 16–34) -/

def AUDIO_SECONDS : ℕ := 4
def AUDIO_SAMPLE_RATE : ℕ := 16000
def TRANSCRIPTION_MODEL : String := "gemini/gemini-2.0-flash"
def VISION_TEXT_MODEL : String := "gemini/gemini-2.0-flash"
def DEFAULT_VOICE_ID : String := "JBFqnCBsd6RMkjVDRZzb"

def GOOFY_SYSTEM_PROMPT : String :=
  pyStrip ("\nEres una cámara de seguridad IA muy graciosa y exagerada.\n" ++
   "Habla SIEMPRE en español.\n" ++
   "Sé breve (1-3 frases), divertida y amigable.\n" ++
   "Describe qué ves y qué escuchas, pero evita inventar hechos peligrosos.\n")

/-! ### The five pipeline steps -/

/-- Outcomes of the camera's external calls within one
`capture_webcam_frame` invocation. -/
structure CameraWorld where
  isOpened : Bool
  readOk : Bool
  encodeOk : Bool
  jpegBytes : List ℕ
deriving DecidableEq

/-- `capture_webcam_frame` (lines 37–53): open camera 0, read one frame,
release the handle, JPEG-encode, base64-encode. -/
def capture_webcam_frame (w : CameraWorld) : List Event × Except PyErr String :=
  if ¬ w.isOpened then
    ([.camOpen], .error (.runtimeError "No se pudo abrir la webcam (índice 0)."))
  else if ¬ w.readOk then
    ([.camOpen, .camRead, .camRelease],
      .error (.runtimeError "No se pudo capturar un frame de la webcam."))
  else if ¬ w.encodeOk then
    ([.camOpen, .camRead, .camRelease, .jpegEncode],
      .error (.runtimeError "No se pudo codificar la imagen como JPEG."))
  else
    ([.camOpen, .camRead, .camRelease, .jpegEncode],
      .ok (base64Encode w.jpegBytes))

/-- Outcome of the microphone recording and temp-file write: the temporary
WAV path on success, or the exception the audio stack raised. -/
structure MicWorld where
  result : Except PyErr String

def recordBanner : String := "🎤 Grabando audio por 4 segundos..."

/-- `record_microphone_wav` (lines 56–69) at the default `seconds = 4`. -/
def record_microphone_wav (w : MicWorld) : List Event × Except PyErr String :=
  match w.result with
  | .error e => ([.print recordBanner], .error e)
  | .ok path =>
    ([.print recordBanner, .micRecord (AUDIO_SECONDS * AUDIO_SAMPLE_RATE),
      .sdWaitRecord, .tmpWriteWav path], .ok path)

/-- Outcome of the Gemini transcription call, as a function of the WAV path
sent: the raw `result.text`, or the exception the call raised. -/
structure TranscribeWorld where
  result : String → Except PyErr String

/-- `transcribe_audio_with_gemini` (lines 72–84): send the WAV, return
`result.text.strip()`. -/
def transcribe_audio_with_gemini (w : TranscribeWorld) (wav_path : String) :
    List Event × Except PyErr String :=
  match w.result wav_path with
  | .error e => ([.transcribeCall wav_path], .error e)
  | .ok t => ([.transcribeCall wav_path], .ok (pyStrip t))

/-- The text field of the user message (line 92–96); Python
`transcript_text or '[sin audio claro]'` substitutes the placeholder exactly
when the transcript is the empty string (the only falsy `str`). -/
def userText (transcript_text : String) : String :=
  "Este es el contexto del micrófono transcrito: '" ++
    (if transcript_text = "" then "[sin audio claro]" else transcript_text) ++
    "'. Describe qué está pasando como una cámara de seguridad cómica."

/-- The inline data URL of the frame (line 100). -/
def imageUrl (frame_b64 : String) : String :=
  "data:image/jpeg;base64," ++ frame_b64

/-- Outcome of the completion call, as a function of the user text and the
image URL sent: the raw `response.choices[0].message.content`, or the
exception the call raised. -/
structure CompletionWorld where
  result : String → String → Except PyErr String

/-- `generate_goofy_reply` (lines 87–114): multimodal prompt, return
`content.strip()`. -/
def generate_goofy_reply (w : CompletionWorld) (frame_b64 transcript_text : String) :
    List Event × Except PyErr String :=
  match w.result (userText transcript_text) (imageUrl frame_b64) with
  | .error e =>
    ([.completionCall GOOFY_SYSTEM_PROMPT (userText transcript_text)
      (imageUrl frame_b64)], .error e)
  | .ok c =>
    ([.completionCall GOOFY_SYSTEM_PROMPT (userText transcript_text)
      (imageUrl frame_b64)], .ok (pyStrip c))

/-- Outcome of the ElevenLabs text-to-speech call, as a function of the API
key, voice id and text sent: the audio bytes, or the exception raised. -/
structure SpeakWorld where
  convert : String → String → String → Except PyErr (List ℕ)

/-- `speak_with_elevenlabs` (lines 117–135): re-reads
`os.environ["ELEVENLABS_API_KEY"]` on every call (line 119), converts, writes
a temp MP3, then plays synchronously — `sd.wait()` blocks until playback is
done, and only then does the function return. -/
def speak_with_elevenlabs (env : Env) (w : SpeakWorld) (text voice_id : String) :
    List Event × Except PyErr Unit :=
  match env "ELEVENLABS_API_KEY" with
  | none => ([.envRead "ELEVENLABS_API_KEY"], .error (.keyError "ELEVENLABS_API_KEY"))
  | some key =>
    match w.convert key voice_id text with
    | .error e =>
      ([.envRead "ELEVENLABS_API_KEY",
        .ttsConvert key voice_id "eleven_multilingual_v2" text], .error e)
    | .ok _ =>
      ([.envRead "ELEVENLABS_API_KEY",
        .ttsConvert key voice_id "eleven_multilingual_v2" text,
        .tmpWriteMp3, .sfRead, .sdPlay, .sdWaitPlay], .ok ())

/-! ### The main loop (lines 138–170) -/

/-- The external outcomes of one iteration of the `while True` loop.  Any
step's oracle may return `.error .keyboardInterrupt`: in CPython an operator
interrupt raised while a step is in flight propagates out of the step and is
only caught by the `except KeyboardInterrupt` at the loop level. -/
structure IterWorld where
  camera : CameraWorld
  mic : MicWorld
  gemini : TranscribeWorld
  vision : CompletionWorld
  tts : SpeakWorld

/-- The body of the `try:` block (lines 155–164): the five steps in source
order, each consuming only values produced earlier in the same iteration,
then `time.sleep(loop_delay)`. -/
def runIteration (env : Env) (w : IterWorld) (voice_id : String)
    (loop_delay : PyFloat) : List Event × Except PyErr Unit :=
  match capture_webcam_frame w.camera with
  | (e1, .error e) => (e1, .error e)
  | (e1, .ok frame_b64) =>
    match record_microphone_wav w.mic with
    | (e2, .error e) => (e1 ++ e2, .error e)
    | (e2, .ok wav_path) =>
      match transcribe_audio_with_gemini w.gemini wav_path with
      | (e3, .error e) => (e1 ++ e2 ++ e3, .error e)
      | (e3, .ok transcript_text) =>
        let p1 := Event.print ("📝 Transcripción: " ++
          (if transcript_text = "" then "[vacío]" else transcript_text))
        match generate_goofy_reply w.vision frame_b64 transcript_text with
        | (e4, .error e) => (e1 ++ e2 ++ e3 ++ [p1] ++ e4, .error e)
        | (e4, .ok reply) =>
          let p2 := Event.print ("🗣️ Respuesta IA: " ++ reply)
          match speak_with_elevenlabs env w.tts reply voice_id with
          | (e5, .error e) =>
            (e1 ++ e2 ++ e3 ++ [p1] ++ e4 ++ [p2] ++ e5, .error e)
          | (e5, .ok _) =>
            (e1 ++ e2 ++ e3 ++ [p1] ++ e4 ++ [p2] ++ e5 ++
              [.sleepFor loop_delay], .ok ())

/-- Why the observation of the loop ended: the operator interrupt broke out
of `while True`, or the observed finite prefix of iterations ran out (the
real loop would keep running). -/
inductive LoopExit
  | interrupted
  | stillRunning
deriving DecidableEq

def farewellMsg : String := "\n👋 Saliendo..."

/-- The `while True:` loop (lines 153–170), observed along a finite list of
per-iteration worlds.  `except KeyboardInterrupt` prints the farewell and
breaks; `except Exception` prints the diagnostic, sleeps 1.0 s, and
continues with the next iteration. -/
def mainLoop (env : Env) (voice_id : String) (loop_delay : PyFloat) :
    List IterWorld → List Event × LoopExit
  | [] => ([], .stillRunning)
  | w :: ws =>
    match runIteration env w voice_id loop_delay with
    | (evts, .ok _) =>
      let rest := mainLoop env voice_id loop_delay ws
      (evts ++ rest.1, rest.2)
    | (evts, .error .keyboardInterrupt) =>
      (evts ++ [.print farewellMsg], .interrupted)
    | (evts, .error e) =>
      let rest := mainLoop env voice_id loop_delay ws
      (evts ++ [.print ("⚠️ Error en loop: " ++ e.message),
        .sleepFor (.finite 1)] ++ rest.1, rest.2)

/-- `if not os.getenv(k)` — Python truthiness of the lookup: `None` and the
empty string are falsy. -/
def credentialPresent (v : Option String) : Bool :=
  match v with
  | none => false
  | some s => s ≠ ""

/-- `voice_id = os.getenv("ELEVENLABS_VOICE_ID", DEFAULT_VOICE_ID)` (line 149). -/
def resolve_voice_id (env : Env) : String :=
  (env "ELEVENLABS_VOICE_ID").getD DEFAULT_VOICE_ID

/-- The string handed to `float` in
`loop_delay = float(os.getenv("LOOP_DELAY_SECONDS", "1.0"))` (line 150). -/
def resolve_loop_delay_str (env : Env) : String :=
  (env "LOOP_DELAY_SECONDS").getD "1.0"

def startBanner : String := "🤖 Cámara IA graciosa iniciada. Ctrl+C para salir."

/-- `main` (lines 138–170): credential checks, config resolution, banner,
then the loop.  A `.error` result is an exception propagating out of `main`
and terminating the process. -/
def main (env : Env) (worlds : List IterWorld) :
    List Event × Except PyErr LoopExit :=
  if ¬ credentialPresent (env "GEMINI_API_KEY") then
    ([.envRead "GEMINI_API_KEY"],
      .error (.runtimeError "Falta GEMINI_API_KEY en variables de entorno."))
  else if ¬ credentialPresent (env "ELEVENLABS_API_KEY") then
    ([.envRead "GEMINI_API_KEY", .envRead "ELEVENLABS_API_KEY"],
      .error (.runtimeError "Falta ELEVENLABS_API_KEY en variables de entorno."))
  else
    match pyFloat (resolve_loop_delay_str env) with
    | none =>
      ([.envRead "GEMINI_API_KEY", .envRead "ELEVENLABS_API_KEY",
        .envRead "ELEVENLABS_VOICE_ID", .envRead "LOOP_DELAY_SECONDS"],
        .error (.valueError ("could not convert string to float: '" ++
          resolve_loop_delay_str env ++ "'")))
    | some loop_delay =>
      let loopRes := mainLoop env (resolve_voice_id env) loop_delay worlds
      ([.envRead "GEMINI_API_KEY", .envRead "ELEVENLABS_API_KEY",
        .envRead "ELEVENLABS_VOICE_ID", .envRead "LOOP_DELAY_SECONDS",
        .print startBanner] ++ loopRes.1, .ok loopRes.2)

/-! ### Helper lemmas -/

theorem capture_ok (w : CameraWorld) (h1 : w.isOpened = true)
    (h2 : w.readOk = true) (h3 : w.encodeOk = true) :
    capture_webcam_frame w =
      ([.camOpen, .camRead, .camRelease, .jpegEncode],
        .ok (base64Encode w.jpegBytes)) := by
  simp [capture_webcam_frame, h1, h2, h3]

theorem record_ok (w : MicWorld) (p : String) (h : w.result = .ok p) :
    record_microphone_wav w =
      ([.print recordBanner, .micRecord (AUDIO_SECONDS * AUDIO_SAMPLE_RATE),
        .sdWaitRecord, .tmpWriteWav p], .ok p) := by
  simp [record_microphone_wav, h]

theorem transcribe_ok (w : TranscribeWorld) (path raw : String)
    (h : w.result path = .ok raw) :
    transcribe_audio_with_gemini w path =
      ([.transcribeCall path], .ok (pyStrip raw)) := by
  simp [transcribe_audio_with_gemini, h]

theorem generate_ok (w : CompletionWorld) (frame t raw : String)
    (h : w.result (userText t) (imageUrl frame) = .ok raw) :
    generate_goofy_reply w frame t =
      ([.completionCall GOOFY_SYSTEM_PROMPT (userText t) (imageUrl frame)],
        .ok (pyStrip raw)) := by
  simp [generate_goofy_reply, h]

theorem speak_ok (env : Env) (w : SpeakWorld) (text v key : String)
    (bs : List ℕ) (hk : env "ELEVENLABS_API_KEY" = some key)
    (hc : w.convert key v text = .ok bs) :
    speak_with_elevenlabs env w text v =
      ([.envRead "ELEVENLABS_API_KEY",
        .ttsConvert key v "eleven_multilingual_v2" text,
        .tmpWriteMp3, .sfRead, .sdPlay, .sdWaitPlay], .ok ()) := by
  simp [speak_with_elevenlabs, hk, hc]

/-- The full event trace of one successful iteration, given the outcomes of
every external call. -/
theorem runIteration_ok (env : Env) (w : IterWorld) (v : String) (d : PyFloat)
    (key wav rawT rawR : String) (bs : List ℕ)
    (hc1 : w.camera.isOpened = true) (hc2 : w.camera.readOk = true)
    (hc3 : w.camera.encodeOk = true)
    (hm : w.mic.result = .ok wav)
    (ht : w.gemini.result wav = .ok rawT)
    (hg : w.vision.result (userText (pyStrip rawT))
      (imageUrl (base64Encode w.camera.jpegBytes)) = .ok rawR)
    (hk : env "ELEVENLABS_API_KEY" = some key)
    (hs : w.tts.convert key v (pyStrip rawR) = .ok bs) :
    runIteration env w v d =
      ([.camOpen, .camRead, .camRelease, .jpegEncode,
        .print recordBanner, .micRecord (AUDIO_SECONDS * AUDIO_SAMPLE_RATE),
        .sdWaitRecord, .tmpWriteWav wav,
        .transcribeCall wav,
        .print ("📝 Transcripción: " ++
          (if (pyStrip rawT) = "" then "[vacío]" else (pyStrip rawT))),
        .completionCall GOOFY_SYSTEM_PROMPT (userText (pyStrip rawT))
          (imageUrl (base64Encode w.camera.jpegBytes)),
        .print ("🗣️ Respuesta IA: " ++ (pyStrip rawR)),
        .envRead "ELEVENLABS_API_KEY",
        .ttsConvert key v "eleven_multilingual_v2" (pyStrip rawR),
        .tmpWriteMp3, .sfRead, .sdPlay, .sdWaitPlay,
        .sleepFor d], .ok ()) := by
  simp only [runIteration, capture_ok w.camera hc1 hc2 hc3,
    record_ok w.mic wav hm, transcribe_ok w.gemini wav rawT ht,
    generate_ok w.vision _ _ rawR hg,
    speak_ok env w.tts (pyStrip rawR) v key bs hk hs]
  rfl

/-- A successful iteration: the loop appends the next iterations' events
after this iteration's, and the continuation does not depend on this
iteration's outputs. -/
theorem mainLoop_cons_ok (env : Env) (v : String) (d : PyFloat)
    (w : IterWorld) (ws : List IterWorld)
    (h : (runIteration env w v d).2 = .ok ()) :
    mainLoop env v d (w :: ws) =
      ((runIteration env w v d).1 ++ (mainLoop env v d ws).1,
        (mainLoop env v d ws).2) := by
  rw [mainLoop]
  rcases hE : runIteration env w v d with ⟨evts, r⟩
  rw [hE] at h
  simp at h
  subst h
  simp

/-- A failed iteration (not an interrupt): diagnostic print, fixed 1.0 s
backoff, then the loop continues with the remaining iterations. -/
theorem mainLoop_cons_err (env : Env) (v : String) (d : PyFloat)
    (w : IterWorld) (ws : List IterWorld) (e : PyErr)
    (h : (runIteration env w v d).2 = .error e)
    (hne : e ≠ .keyboardInterrupt) :
    mainLoop env v d (w :: ws) =
      ((runIteration env w v d).1 ++
        [.print ("⚠️ Error en loop: " ++ e.message), .sleepFor (.finite 1)] ++
        (mainLoop env v d ws).1, (mainLoop env v d ws).2) := by
  rw [mainLoop]
  rcases hE : runIteration env w v d with ⟨evts, r⟩
  rw [hE] at h
  simp at h
  subst h
  cases e <;> simp_all

/-- An interrupted iteration: farewell print, loop breaks, the remaining
iterations never run. -/
theorem mainLoop_cons_interrupt (env : Env) (v : String) (d : PyFloat)
    (w : IterWorld) (ws : List IterWorld)
    (h : (runIteration env w v d).2 = .error .keyboardInterrupt) :
    mainLoop env v d (w :: ws) =
      ((runIteration env w v d).1 ++ [.print farewellMsg], .interrupted) := by
  rw [mainLoop]
  rcases hE : runIteration env w v d with ⟨evts, r⟩
  rw [hE] at h
  simp at h
  subst h
  simp

/-- If no iteration raises the operator interrupt, the loop consumes its
whole observation without exiting. -/
theorem mainLoop_no_interrupt (env : Env) (v : String) (d : PyFloat)
    (ws : List IterWorld)
    (h : ∀ w ∈ ws, (runIteration env w v d).2 ≠ .error .keyboardInterrupt) :
    (mainLoop env v d ws).2 = .stillRunning := by
  induction ws with
  | nil => rfl
  | cons w ws ih =>
    rw [mainLoop]
    rcases hE : runIteration env w v d with ⟨evts, r⟩
    have hw := h w (List.mem_cons_self w ws)
    rw [hE] at hw
    have hrest : ∀ w' ∈ ws, (runIteration env w' v d).2 ≠ .error .keyboardInterrupt :=
      fun w' hw' => h w' (List.mem_cons_of_mem w hw')
    rcases r with e | u
    · cases e <;> simp_all [ih hrest]
    · simp [ih hrest]

/-- Invariant of every event the loop can emit while RUNNING: the only
environment reads are of `ELEVENLABS_API_KEY`; every text-to-speech call
uses the configured voice id and the API key currently in the (immutable)
environment; every sleep is either the configured delay or the fixed 1.0 s
backoff. -/
def LoopEvent (env : Env) (v : String) (d : PyFloat) : Event → Prop
  | .envRead k => k = "ELEVENLABS_API_KEY"
  | .ttsConvert k v' m _ => env "ELEVENLABS_API_KEY" = some k ∧ v' = v ∧
      m = "eleven_multilingual_v2"
  | .sleepFor q => q = d ∨ q = .finite 1
  | _ => True

theorem capture_events (w : CameraWorld) (env : Env) (v : String) (d : PyFloat) :
    ∀ e ∈ (capture_webcam_frame w).1, LoopEvent env v d e := by
  intro e he
  rcases w with ⟨o, r, k, bs⟩
  cases o <;> cases r <;> cases k <;>
    simp only [capture_webcam_frame, Bool.not_true, Bool.not_false, if_true,
      if_false, ite_true, ite_false, not_false_eq_true, not_true_eq_false] at he <;>
    fin_cases he <;> trivial

theorem record_events (w : MicWorld) (env : Env) (v : String) (d : PyFloat) :
    ∀ e ∈ (record_microphone_wav w).1, LoopEvent env v d e := by
  intro e he
  rcases hr : w.result with er | p <;> simp only [record_microphone_wav, hr] at he <;>
    fin_cases he <;> trivial

theorem transcribe_events (w : TranscribeWorld) (p : String) (env : Env)
    (v : String) (d : PyFloat) :
    ∀ e ∈ (transcribe_audio_with_gemini w p).1, LoopEvent env v d e := by
  intro e he
  rcases hr : w.result p with er | t <;>
    simp only [transcribe_audio_with_gemini, hr] at he <;>
    fin_cases he <;> trivial

theorem generate_events (w : CompletionWorld) (f t : String) (env : Env)
    (v : String) (d : PyFloat) :
    ∀ e ∈ (generate_goofy_reply w f t).1, LoopEvent env v d e := by
  intro e he
  rcases hr : w.result (userText t) (imageUrl f) with er | c <;>
    simp only [generate_goofy_reply, hr] at he <;>
    fin_cases he <;> trivial

theorem speak_events (w : SpeakWorld) (text : String) (env : Env)
    (v : String) (d : PyFloat) :
    ∀ e ∈ (speak_with_elevenlabs env w text v).1, LoopEvent env v d e := by
  intro e he
  rcases hk : env "ELEVENLABS_API_KEY" with _ | key
  · simp only [speak_with_elevenlabs, hk] at he
    fin_cases he <;> trivial
  · rcases hc : w.convert key v text with er | bs <;>
      simp only [speak_with_elevenlabs, hk, hc] at he <;>
      fin_cases he <;> first | trivial | exact ⟨hk, rfl, rfl⟩

theorem runIteration_events (env : Env) (w : IterWorld) (v : String)
    (d : PyFloat) :
    ∀ e ∈ (runIteration env w v d).1, LoopEvent env v d e := by
  intro e he
  rw [runIteration] at he
  rcases h1 : capture_webcam_frame w.camera with ⟨e1, r1⟩
  have c1 : ∀ e ∈ e1, LoopEvent env v d e := by
    have h := capture_events w.camera env v d
    rw [h1] at h
    exact h
  simp only [h1] at he
  rcases r1 with er | frame
  · exact c1 e he
  rcases h2 : record_microphone_wav w.mic with ⟨e2, r2⟩
  have c2 : ∀ e ∈ e2, LoopEvent env v d e := by
    have h := record_events w.mic env v d
    rw [h2] at h
    exact h
  simp only [h2] at he
  rcases r2 with er | wav
  · simp only [List.mem_append, List.mem_singleton, or_assoc] at he
    rcases he with h | h
    · exact c1 e h
    · exact c2 e h
  rcases h3 : transcribe_audio_with_gemini w.gemini wav with ⟨e3, r3⟩
  have c3 : ∀ e ∈ e3, LoopEvent env v d e := by
    have h := transcribe_events w.gemini wav env v d
    rw [h3] at h
    exact h
  simp only [h3] at he
  rcases r3 with er | t
  · simp only [List.mem_append, List.mem_singleton, or_assoc] at he
    rcases he with h | h | h
    · exact c1 e h
    · exact c2 e h
    · exact c3 e h
  rcases h4 : generate_goofy_reply w.vision frame t with ⟨e4, r4⟩
  have c4 : ∀ e ∈ e4, LoopEvent env v d e := by
    have h := generate_events w.vision frame t env v d
    rw [h4] at h
    exact h
  simp only [h4] at he
  rcases r4 with er | reply
  · simp only [List.mem_append, List.mem_singleton, or_assoc] at he
    rcases he with h | h | h | h | h
    · exact c1 e h
    · exact c2 e h
    · exact c3 e h
    · subst h; trivial
    · exact c4 e h
  rcases h5 : speak_with_elevenlabs env w.tts reply v with ⟨e5, r5⟩
  have c5 : ∀ e ∈ e5, LoopEvent env v d e := by
    have h := speak_events w.tts reply env v d
    rw [h5] at h
    exact h
  simp only [h5] at he
  rcases r5 with er | u
  · simp only [List.mem_append, List.mem_singleton, or_assoc] at he
    rcases he with h | h | h | h | h | h | h
    · exact c1 e h
    · exact c2 e h
    · exact c3 e h
    · subst h; trivial
    · exact c4 e h
    · subst h; trivial
    · exact c5 e h
  · simp only [List.mem_append, List.mem_singleton, or_assoc] at he
    rcases he with h | h | h | h | h | h | h | h
    · exact c1 e h
    · exact c2 e h
    · exact c3 e h
    · subst h; trivial
    · exact c4 e h
    · subst h; trivial
    · exact c5 e h
    · subst h; left; rfl

theorem mainLoop_events (env : Env) (v : String) (d : PyFloat)
    (ws : List IterWorld) :
    ∀ e ∈ (mainLoop env v d ws).1, LoopEvent env v d e := by
  induction ws with
  | nil => intro e he; simp [mainLoop] at he
  | cons w ws ih =>
    intro e he
    rw [mainLoop] at he
    rcases hE : runIteration env w v d with ⟨evts, r⟩
    have cw : ∀ e ∈ evts, LoopEvent env v d e := by
      have h := runIteration_events env w v d
      rw [hE] at h
      exact h
    simp only [hE] at he
    rcases r with er | u
    · rcases er with m | m | k | _ | m
      case keyboardInterrupt =>
        simp only [List.mem_append, List.mem_singleton] at he
        rcases he with h | h
        · exact cw e h
        · subst h; trivial
      all_goals
        simp only [List.mem_append, List.mem_cons, List.not_mem_nil,
          or_false, or_assoc] at he
      all_goals
        rcases he with h | h | h | h
        · exact cw e h
        · subst h; trivial
        · subst h; right; rfl
        · exact ih e h
    · simp only [List.mem_append] at he
      rcases he with h | h
      · exact cw e h
      · exact ih e h

/-! ### Concrete environments and worlds used to instantiate the theorems -/

def envNone : Env := fun _ => none

def envBoth : Env := fun k =>
  if k = "GEMINI_API_KEY" then some "g"
  else if k = "ELEVENLABS_API_KEY" then some "e" else none

def envBadDelay : Env := fun k =>
  if k = "GEMINI_API_KEY" then some "g"
  else if k = "ELEVENLABS_API_KEY" then some "e"
  else if k = "LOOP_DELAY_SECONDS" then some "abc" else none

def camOK : CameraWorld := ⟨true, true, true, []⟩

def wOK : IterWorld :=
  { camera := camOK, mic := ⟨.ok "mic.wav"⟩, gemini := ⟨fun _ => .ok "hola"⟩,
    vision := ⟨fun _ _ => .ok "resp"⟩, tts := ⟨fun _ _ _ => .ok []⟩ }

def wFail : IterWorld := { wOK with camera := ⟨false, true, true, []⟩ }

def wInt : IterWorld := { wOK with mic := ⟨.error .keyboardInterrupt⟩ }

/-! ### The claims -/

/-- C1: if either required credential (GEMINI_API_KEY or ELEVENLABS_API_KEY)
is absent (or empty, which the `if not os.getenv(...)` check treats the
same), `main` raises a `RuntimeError` and terminates with a trace that
contains no pipeline-step event and no print — in particular no "started"
banner; with both credentials present (and a parseable delay, cf. C10),
startup prints the banner and enters the loop. -/
theorem claim_C1 (env : Env) (worlds : List IterWorld) :
    (credentialPresent (env "GEMINI_API_KEY") = false →
      main env worlds = ([.envRead "GEMINI_API_KEY"],
        .error (.runtimeError "Falta GEMINI_API_KEY en variables de entorno."))) ∧
    (credentialPresent (env "GEMINI_API_KEY") = true →
      credentialPresent (env "ELEVENLABS_API_KEY") = false →
      main env worlds =
        ([.envRead "GEMINI_API_KEY", .envRead "ELEVENLABS_API_KEY"],
          .error (.runtimeError "Falta ELEVENLABS_API_KEY en variables de entorno."))) ∧
    (∀ d, credentialPresent (env "GEMINI_API_KEY") = true →
      credentialPresent (env "ELEVENLABS_API_KEY") = true →
      pyFloat (resolve_loop_delay_str env) = some d →
      main env worlds =
        ([.envRead "GEMINI_API_KEY", .envRead "ELEVENLABS_API_KEY",
          .envRead "ELEVENLABS_VOICE_ID", .envRead "LOOP_DELAY_SECONDS",
          .print startBanner] ++ (mainLoop env (resolve_voice_id env) d worlds).1,
          .ok (mainLoop env (resolve_voice_id env) d worlds).2)) := by
  refine ⟨fun h1 => ?_, fun h1 h2 => ?_, fun d h1 h2 h3 => ?_⟩
  · simp [main, h1]
  · simp [main, h1, h2]
  · simp [main, h1, h2, h3]

/-- Closed instance of C1: with an empty environment `main` dies on the
missing GEMINI_API_KEY before printing anything; with both credentials set,
it prints the banner and runs the loop. -/
theorem claim_C1_witness :
    main envNone [] = ([.envRead "GEMINI_API_KEY"],
      .error (.runtimeError "Falta GEMINI_API_KEY en variables de entorno.")) ∧
    main envBoth [] =
      ([.envRead "GEMINI_API_KEY", .envRead "ELEVENLABS_API_KEY",
        .envRead "ELEVENLABS_VOICE_ID", .envRead "LOOP_DELAY_SECONDS",
        .print startBanner], .ok .stillRunning) := by
  constructor
  · exact (claim_C1 envNone []).1 (by decide)
  · have h := (claim_C1 envBoth []).2.2 (.finite 1) (by decide) (by decide)
      (by decide)
    simpa [mainLoop] using h

/-- C10: with both credentials present but LOOP_DELAY_SECONDS set to a
string `float` cannot parse, `main` raises the `ValueError` from `float()`
after the credential checks (the two credential reads are in the trace) and
before the banner and before any pipeline step (the trace ends at the
config reads); there is no fallback to the 1.0-second default. -/
theorem claim_C10 (env : Env) (worlds : List IterWorld)
    (hg : credentialPresent (env "GEMINI_API_KEY") = true)
    (he : credentialPresent (env "ELEVENLABS_API_KEY") = true)
    (hd : pyFloat (resolve_loop_delay_str env) = none) :
    main env worlds =
      ([.envRead "GEMINI_API_KEY", .envRead "ELEVENLABS_API_KEY",
        .envRead "ELEVENLABS_VOICE_ID", .envRead "LOOP_DELAY_SECONDS"],
        .error (.valueError ("could not convert string to float: '" ++
          resolve_loop_delay_str env ++ "'"))) := by
  simp [main, hg, he, hd]

/-- Closed instance of C10 at LOOP_DELAY_SECONDS = "abc". -/
theorem claim_C10_witness :
    main envBadDelay [] =
      ([.envRead "GEMINI_API_KEY", .envRead "ELEVENLABS_API_KEY",
        .envRead "ELEVENLABS_VOICE_ID", .envRead "LOOP_DELAY_SECONDS"],
        .error (.valueError "could not convert string to float: 'abc'")) := by
  have h := claim_C10 envBadDelay [] (by decide) (by decide) (by decide)
  simpa using h

/-- C3: the text field sent to the reply generator embeds the fixed
placeholder '[sin audio claro]' exactly when the transcript is empty, and
the transcript itself otherwise; for every frame and transcript, the user
message sent by `generate_goofy_reply` carries exactly this text field and
the frame as an inline base64 data URL. -/
theorem claim_C3 (w : CompletionWorld) (frame_b64 transcript_text : String) :
    (generate_goofy_reply w frame_b64 transcript_text).1 =
      [.completionCall GOOFY_SYSTEM_PROMPT (userText transcript_text)
        (imageUrl frame_b64)] ∧
    (transcript_text = "" → userText transcript_text =
      "Este es el contexto del micrófono transcrito: '[sin audio claro]'. " ++
      "Describe qué está pasando como una cámara de seguridad cómica.") ∧
    (transcript_text ≠ "" → userText transcript_text =
      "Este es el contexto del micrófono transcrito: '" ++ transcript_text ++
      "'. Describe qué está pasando como una cámara de seguridad cómica.") := by
  refine ⟨?_, fun h => ?_, fun h => ?_⟩
  · rcases hr : w.result (userText transcript_text) (imageUrl frame_b64) with er | c <;>
      simp [generate_goofy_reply, hr]
  · simp [userText, h]
  · simp [userText, h]

/-- Closed instance of C3 at the empty and at a non-empty transcript. -/
theorem claim_C3_witness :
    userText "" =
      "Este es el contexto del micrófono transcrito: '[sin audio claro]'. " ++
      "Describe qué está pasando como una cámara de seguridad cómica." ∧
    userText "hola" =
      "Este es el contexto del micrófono transcrito: 'hola'. " ++
      "Describe qué está pasando como una cámara de seguridad cómica." := by
  constructor
  · exact (claim_C3 ⟨fun _ _ => .ok ""⟩ "f" "").2.1 rfl
  · have h := (claim_C3 ⟨fun _ _ => .ok ""⟩ "f" "hola").2.2 (by decide)
    simpa using h

/-- C5: `capture_webcam_frame` raises a descriptive `RuntimeError` exactly
when the camera cannot be opened, the frame read fails, or JPEG encoding
fails; otherwise it returns the frame as a base64-encoded JPEG string; and
the device handle is acquired exactly when the open succeeds, in which case
`cam.release()` runs within the same call on every path, success or
failure. -/
theorem claim_C5 (w : CameraWorld) :
    (w.isOpened = false → capture_webcam_frame w =
      ([.camOpen], .error (.runtimeError "No se pudo abrir la webcam (índice 0)."))) ∧
    (w.isOpened = true → w.readOk = false → capture_webcam_frame w =
      ([.camOpen, .camRead, .camRelease],
        .error (.runtimeError "No se pudo capturar un frame de la webcam."))) ∧
    (w.isOpened = true → w.readOk = true → w.encodeOk = false →
      capture_webcam_frame w =
        ([.camOpen, .camRead, .camRelease, .jpegEncode],
          .error (.runtimeError "No se pudo codificar la imagen como JPEG."))) ∧
    (w.isOpened = true → w.readOk = true → w.encodeOk = true →
      capture_webcam_frame w =
        ([.camOpen, .camRead, .camRelease, .jpegEncode],
          .ok (base64Encode w.jpegBytes))) ∧
    ((capture_webcam_frame w).2 = .ok (base64Encode w.jpegBytes) ↔
      w.isOpened = true ∧ w.readOk = true ∧ w.encodeOk = true) ∧
    (Event.camRelease ∈ (capture_webcam_frame w).1 ↔ w.isOpened = true) := by
  rcases w with ⟨o, r, k, bs⟩
  cases o <;> cases r <;> cases k <;> simp [capture_webcam_frame]

/-- Closed instance of C5: an unopenable camera fails without a release
event; a fully working camera returns the base64 JPEG after releasing. -/
theorem claim_C5_witness :
    capture_webcam_frame ⟨false, true, true, []⟩ =
      ([.camOpen], .error (.runtimeError "No se pudo abrir la webcam (índice 0).")) ∧
    capture_webcam_frame camOK =
      ([.camOpen, .camRead, .camRelease, .jpegEncode], .ok "") := by
  constructor
  · exact (claim_C5 ⟨false, true, true, []⟩).1 rfl
  · have h := (claim_C5 camOK).2.2.2.1 rfl rfl rfl
    simpa [camOK] using h

/-- C2: an exception raised by any of the five steps in an iteration is
caught at the loop level (the loop's result is an ordinary continuation, not
a propagated error), produces the console diagnostic, is followed by the
fixed 1.0-second backoff, and the loop then continues with the next
iteration; and a run consisting of any number of consecutive failing
iterations still leaves the loop running — there is no failure bound. -/
theorem claim_C2 (env : Env) (v : String) (d : PyFloat) :
    (∀ w ws e, (runIteration env w v d).2 = .error e →
      e ≠ .keyboardInterrupt →
      mainLoop env v d (w :: ws) =
        ((runIteration env w v d).1 ++
          [.print ("⚠️ Error en loop: " ++ e.message),
            .sleepFor (.finite 1)] ++ (mainLoop env v d ws).1,
          (mainLoop env v d ws).2)) ∧
    (∀ ws, (∀ w ∈ ws, ∃ e, (runIteration env w v d).2 = .error e ∧
        e ≠ .keyboardInterrupt) →
      (mainLoop env v d ws).2 = .stillRunning) := by
  constructor
  · exact fun w ws e h hne => mainLoop_cons_err env v d w ws e h hne
  · intro ws h
    refine mainLoop_no_interrupt env v d ws (fun w hw hcontra => ?_)
    rcases h w hw with ⟨e, he, hne⟩
    rw [he] at hcontra
    exact hne (by injection hcontra)

/-- Closed instance of C2: a camera-open failure is caught, logged, and
followed by the 1.0 s backoff, and an observation made only of failing
iterations is still running at its end. -/
theorem claim_C2_witness :
    mainLoop envBoth "vox" (.finite 2) [wFail] =
      ([.camOpen,
        .print "⚠️ Error en loop: No se pudo abrir la webcam (índice 0).",
        .sleepFor (.finite 1)], .stillRunning) := by
  have h := (claim_C2 envBoth "vox" (.finite 2)).1 wFail []
    (.runtimeError "No se pudo abrir la webcam (índice 0).") (by decide)
    (by decide)
  have h2 := (claim_C2 envBoth "vox" (.finite 2)).2 [wFail]
    (by
      intro w hw
      simp only [List.mem_singleton] at hw
      subst hw
      exact ⟨.runtimeError "No se pudo abrir la webcam (índice 0).",
        by decide, by decide⟩)
  rw [h]
  simp [mainLoop]
  decide

/-- C7: the loop terminates only on the operator interrupt — if no
iteration raises `KeyboardInterrupt` the loop is still running after any
number of iterations — and when an iteration does raise it, the
`except KeyboardInterrupt` handler at the loop's top level prints the
farewell message and breaks, leaving all remaining iterations unexecuted. -/
theorem claim_C7 (env : Env) (v : String) (d : PyFloat) :
    (∀ ws, (∀ w ∈ ws, (runIteration env w v d).2 ≠ .error .keyboardInterrupt) →
      (mainLoop env v d ws).2 = .stillRunning) ∧
    (∀ w ws, (runIteration env w v d).2 = .error .keyboardInterrupt →
      mainLoop env v d (w :: ws) =
        ((runIteration env w v d).1 ++ [.print farewellMsg], .interrupted)) := by
  exact ⟨fun ws h => mainLoop_no_interrupt env v d ws h,
    fun w ws h => mainLoop_cons_interrupt env v d w ws h⟩

/-- Closed instance of C7: an interrupt during the recording step breaks
the loop with the farewell; the queued second iteration never runs; and a
run with no interrupt is still running at the end of its observation. -/
theorem claim_C7_witness :
    mainLoop envBoth "vox" (.finite 1) [wInt, wOK] =
      ([.camOpen, .camRead, .camRelease, .jpegEncode, .print recordBanner,
        .print farewellMsg], .interrupted) ∧
    (mainLoop envBoth "vox" (.finite 1) [wOK]).2 = .stillRunning := by
  constructor
  · have h := (claim_C7 envBoth "vox" (.finite 1)).2 wInt [wOK] (by decide)
    rw [h]
    decide
  · refine (claim_C7 envBoth "vox" (.finite 1)).1 [wOK] ?_
    intro w hw
    simp only [List.mem_singleton] at hw
    subst hw
    decide

/-- C4: in a successful iteration the five steps run in source order —
capture, record, transcribe, generate, speak — each consuming only this
iteration's outputs: the transcription call receives this iteration's WAV
path, the completion call receives this iteration's transcript and frame,
and the speech call receives this iteration's reply; and the loop's
continuation after the iteration is `mainLoop` of the remaining worlds
alone, so no output is reused in a later iteration. -/
theorem claim_C4 (env : Env) (w : IterWorld) (v : String) (d : PyFloat)
    (key wav rawT rawR : String) (bs : List ℕ) (ws : List IterWorld)
    (hc1 : w.camera.isOpened = true) (hc2 : w.camera.readOk = true)
    (hc3 : w.camera.encodeOk = true)
    (hm : w.mic.result = .ok wav)
    (ht : w.gemini.result wav = .ok rawT)
    (hg : w.vision.result (userText (pyStrip rawT))
      (imageUrl (base64Encode w.camera.jpegBytes)) = .ok rawR)
    (hk : env "ELEVENLABS_API_KEY" = some key)
    (hs : w.tts.convert key v (pyStrip rawR) = .ok bs) :
    runIteration env w v d =
      ([.camOpen, .camRead, .camRelease, .jpegEncode,
        .print recordBanner, .micRecord (AUDIO_SECONDS * AUDIO_SAMPLE_RATE),
        .sdWaitRecord, .tmpWriteWav wav,
        .transcribeCall wav,
        .print ("📝 Transcripción: " ++
          (if (pyStrip rawT) = "" then "[vacío]" else (pyStrip rawT))),
        .completionCall GOOFY_SYSTEM_PROMPT (userText (pyStrip rawT))
          (imageUrl (base64Encode w.camera.jpegBytes)),
        .print ("🗣️ Respuesta IA: " ++ (pyStrip rawR)),
        .envRead "ELEVENLABS_API_KEY",
        .ttsConvert key v "eleven_multilingual_v2" (pyStrip rawR),
        .tmpWriteMp3, .sfRead, .sdPlay, .sdWaitPlay,
        .sleepFor d], .ok ()) ∧
    mainLoop env v d (w :: ws) =
      ((runIteration env w v d).1 ++ (mainLoop env v d ws).1,
        (mainLoop env v d ws).2) := by
  have hIter := runIteration_ok env w v d key wav rawT rawR bs
    hc1 hc2 hc3 hm ht hg hk hs
  refine ⟨hIter, mainLoop_cons_ok env v d w ws ?_⟩
  rw [hIter]

/-- Closed instance of C4 at a fully successful concrete iteration. -/
theorem claim_C4_witness :
    runIteration envBoth wOK "vox" (.finite 1) =
      ([.camOpen, .camRead, .camRelease, .jpegEncode,
        .print recordBanner, .micRecord 64000,
        .sdWaitRecord, .tmpWriteWav "mic.wav",
        .transcribeCall "mic.wav",
        .print "📝 Transcripción: hola",
        .completionCall GOOFY_SYSTEM_PROMPT (userText "hola") (imageUrl ""),
        .print "🗣️ Respuesta IA: resp",
        .envRead "ELEVENLABS_API_KEY",
        .ttsConvert "e" "vox" "eleven_multilingual_v2" "resp",
        .tmpWriteMp3, .sfRead, .sdPlay, .sdWaitPlay,
        .sleepFor (.finite 1)], .ok ()) := by
  have h := (claim_C4 envBoth wOK "vox" (.finite 1) "e" "mic.wav" "hola"
    "resp" [] [] rfl rfl rfl rfl (by decide) (by decide) (by decide)
    (by decide)).1
  rw [h]
  set_option maxRecDepth 10000 in decide

/-- C6: `speak_with_elevenlabs` emits the playback wait (`sd.wait()`) as
its final action before returning, the iteration's `time.sleep` event comes
immediately after the speak call's events, and in the loop all events of an
iteration — its playback included — precede every event of the following
iterations, so playback never overlaps the sleep phase or a later
iteration. -/
theorem claim_C6 (env : Env) (w : IterWorld) (v : String) (d : PyFloat)
    (key wav rawT rawR : String) (bs : List ℕ) (ws : List IterWorld)
    (hc1 : w.camera.isOpened = true) (hc2 : w.camera.readOk = true)
    (hc3 : w.camera.encodeOk = true)
    (hm : w.mic.result = .ok wav)
    (ht : w.gemini.result wav = .ok rawT)
    (hg : w.vision.result (userText (pyStrip rawT))
      (imageUrl (base64Encode w.camera.jpegBytes)) = .ok rawR)
    (hk : env "ELEVENLABS_API_KEY" = some key)
    (hs : w.tts.convert key v (pyStrip rawR) = .ok bs) :
    (speak_with_elevenlabs env w.tts (pyStrip rawR) v).1 =
      [.envRead "ELEVENLABS_API_KEY",
        .ttsConvert key v "eleven_multilingual_v2" (pyStrip rawR),
        .tmpWriteMp3, .sfRead, .sdPlay, .sdWaitPlay] ∧
    (runIteration env w v d).1 =
      ([.camOpen, .camRead, .camRelease, .jpegEncode,
        .print recordBanner, .micRecord (AUDIO_SECONDS * AUDIO_SAMPLE_RATE),
        .sdWaitRecord, .tmpWriteWav wav,
        .transcribeCall wav,
        .print ("📝 Transcripción: " ++
          (if (pyStrip rawT) = "" then "[vacío]" else (pyStrip rawT))),
        .completionCall GOOFY_SYSTEM_PROMPT (userText (pyStrip rawT))
          (imageUrl (base64Encode w.camera.jpegBytes)),
        .print ("🗣️ Respuesta IA: " ++ (pyStrip rawR))] ++
        (speak_with_elevenlabs env w.tts (pyStrip rawR) v).1 ++
        [.sleepFor d]) ∧
    (mainLoop env v d (w :: ws)).1 =
      (runIteration env w v d).1 ++ (mainLoop env v d ws).1 := by
  have hSpeak := speak_ok env w.tts (pyStrip rawR) v key bs hk hs
  have hIter := runIteration_ok env w v d key wav rawT rawR bs
    hc1 hc2 hc3 hm ht hg hk hs
  have hLoop := mainLoop_cons_ok env v d w ws (by rw [hIter])
  refine ⟨by rw [hSpeak], ?_, by rw [hLoop]⟩
  rw [hIter, hSpeak]
  rfl

/-- Closed instance of C6: in the concrete successful run the playback wait
is the speak call's last event and directly precedes the sleep. -/
theorem claim_C6_witness :
    (speak_with_elevenlabs envBoth wOK.tts "resp" "vox").1 =
      [.envRead "ELEVENLABS_API_KEY",
        .ttsConvert "e" "vox" "eleven_multilingual_v2" "resp",
        .tmpWriteMp3, .sfRead, .sdPlay, .sdWaitPlay] ∧
    (mainLoop envBoth "vox" (.finite 1) [wOK]).1 =
      (runIteration envBoth wOK "vox" (.finite 1)).1 ++ [] := by
  have h := claim_C6 envBoth wOK "vox" (.finite 1) "e" "mic.wav" "hola"
    "resp" [] [] rfl rfl rfl rfl (by decide) (by decide) (by decide)
    (by decide)
  have htrim : pyStrip "resp" = "resp" := by decide
  refine ⟨?_, ?_⟩
  · have h1 := h.1
    rw [htrim] at h1
    exact h1
  · have h3 := h.2.2
    simpa [mainLoop] using h3

/-- C9: with ELEVENLABS_VOICE_ID unset the resolved voice id is the fixed
default 'JBFqnCBsd6RMkjVDRZzb' and every text-to-speech call in the whole
run uses it; with LOOP_DELAY_SECONDS unset the delay string defaults to
"1.0", which parses to 1.0, and every sleep in the run — the
successful-iteration sleep included — is 1.0 seconds. -/
theorem claim_C9 (env : Env) (worlds : List IterWorld)
    (hv : env "ELEVENLABS_VOICE_ID" = none)
    (hd : env "LOOP_DELAY_SECONDS" = none) :
    resolve_voice_id env = "JBFqnCBsd6RMkjVDRZzb" ∧
    pyFloat (resolve_loop_delay_str env) = some (.finite 1) ∧
    (∀ e ∈ (main env worlds).1,
      (∀ k vid m t, e = .ttsConvert k vid m t → vid = "JBFqnCBsd6RMkjVDRZzb") ∧
      (∀ q, e = .sleepFor q → q = .finite 1)) := by
  have h1 : resolve_voice_id env = "JBFqnCBsd6RMkjVDRZzb" := by
    simp [resolve_voice_id, hv, DEFAULT_VOICE_ID]
  have hstr : resolve_loop_delay_str env = "1.0" := by
    simp [resolve_loop_delay_str, hd]
  have h2 : pyFloat (resolve_loop_delay_str env) = some (.finite 1) := by
    rw [hstr]
    decide
  refine ⟨h1, h2, ?_⟩
  intro e he
  cases hcg : credentialPresent (env "GEMINI_API_KEY") with
  | false =>
    simp [main, hcg] at he
    subst he
    exact ⟨fun _ _ _ _ hh => (nomatch hh), fun _ hh => nomatch hh⟩
  | true =>
    cases hce : credentialPresent (env "ELEVENLABS_API_KEY") with
    | false =>
      simp [main, hcg, hce] at he
      rcases he with rfl | rfl
      · exact ⟨fun _ _ _ _ hh => (nomatch hh), fun _ hh => nomatch hh⟩
      · exact ⟨fun _ _ _ _ hh => (nomatch hh), fun _ hh => nomatch hh⟩
    | true =>
      simp [main, hcg, hce, h2] at he
      rcases he with rfl | rfl | rfl | rfl | rfl | h
      · exact ⟨fun _ _ _ _ hh => (nomatch hh), fun _ hh => nomatch hh⟩
      · exact ⟨fun _ _ _ _ hh => (nomatch hh), fun _ hh => nomatch hh⟩
      · exact ⟨fun _ _ _ _ hh => (nomatch hh), fun _ hh => nomatch hh⟩
      · exact ⟨fun _ _ _ _ hh => (nomatch hh), fun _ hh => nomatch hh⟩
      · exact ⟨fun _ _ _ _ hh => (nomatch hh), fun _ hh => nomatch hh⟩
      · have hl := mainLoop_events env (resolve_voice_id env) (.finite 1)
          worlds e h
        constructor
        · intro k vid m t hh
          subst hh
          exact hl.2.1.trans h1
        · intro q hh
          subst hh
          rcases hl with hq | hq
          · exact hq
          · exact hq

/-- Closed instance of C9: in a concrete full run with voice id and delay
unset, the defaults resolve as specified and the text-to-speech call in the
trace uses the default voice. -/
theorem claim_C9_witness :
    resolve_voice_id envBoth = "JBFqnCBsd6RMkjVDRZzb" ∧
    pyFloat (resolve_loop_delay_str envBoth) = some (.finite 1) ∧
    Event.ttsConvert "e" "JBFqnCBsd6RMkjVDRZzb" "eleven_multilingual_v2"
      "resp" ∈ (main envBoth [wOK]).1 := by
  have h := claim_C9 envBoth [wOK] rfl rfl
  have hm : Event.ttsConvert "e" "JBFqnCBsd6RMkjVDRZzb"
      "eleven_multilingual_v2" "resp" ∈ (main envBoth [wOK]).1 := by
    set_option maxRecDepth 10000 in decide
  exact ⟨h.1, h.2.1, hm⟩

/-- C8, as stated, is FALSE on the code: `speak_with_elevenlabs` re-reads
`os.environ["ELEVENLABS_API_KEY"]` on every call (line 119), so the
credential IS re-read from the environment while the loop is RUNNING.  In
this concrete run the trace after the banner (which closes startup)
contains an environment read of ELEVENLABS_API_KEY. -/
theorem claim_C8_counterexample :
    (main envBoth [wOK]).1.take 5 =
      [.envRead "GEMINI_API_KEY", .envRead "ELEVENLABS_API_KEY",
        .envRead "ELEVENLABS_VOICE_ID", .envRead "LOOP_DELAY_SECONDS",
        .print startBanner] ∧
    Event.envRead "ELEVENLABS_API_KEY" ∈ (main envBoth [wOK]).1.drop 5 := by
  set_option maxRecDepth 10000 in decide

/-- C8 amended: the voice identifier and the inter-iteration delay are
resolved once at startup and are never re-read while the loop is RUNNING —
the only environment value read inside the loop is ELEVENLABS_API_KEY,
which `speak_with_elevenlabs` re-reads on every call; since the process
environment is immutable, the value each speak call obtains is exactly the
value the startup check saw, and each call uses the startup-resolved voice
id. -/
theorem claim_C8_amended (env : Env) (v : String) (d : PyFloat)
    (worlds : List IterWorld) :
    ∀ e ∈ (mainLoop env v d worlds).1,
      (∀ k, e = .envRead k → k = "ELEVENLABS_API_KEY") ∧
      (∀ k vid m t, e = .ttsConvert k vid m t →
        env "ELEVENLABS_API_KEY" = some k ∧ vid = v) := by
  intro e he
  have hl := mainLoop_events env v d worlds e he
  constructor
  · intro k hh
    subst hh
    exact hl
  · intro k vid m t hh
    subst hh
    exact ⟨hl.1, hl.2.1⟩

/-- Closed instance of the amended C8: the credential value obtained by the
speak call inside the concrete run equals the value the startup check saw,
and the call used the voice id resolved at startup. -/
theorem claim_C8_amended_witness :
    envBoth "ELEVENLABS_API_KEY" = some "e" ∧
    ("vox" : String) = "vox" := by
  have hm : Event.ttsConvert "e" "vox" "eleven_multilingual_v2" "resp" ∈
      (mainLoop envBoth "vox" (.finite 1) [wOK]).1 := by
    set_option maxRecDepth 10000 in decide
  exact (claim_C8_amended envBoth "vox" (.finite 1) [wOK] _ hm).2 "e" "vox"
    "eleven_multilingual_v2" "resp" rfl

end CameraSpeaker
